import Mathlib

/-!
Shallow embedding of the reactive-scheduling / automation-condition
evaluation subsystem of this dagster fork, together with proofs about its
tick-level behaviour: cursor updates, audit-record suppression, default
scheduling policy decisions, and run creation in the instance layer.

Sources embedded:
* `dagster/_core/definitions/automation_condition_sensor_definition.py`
* `dagster/_core/reactive_scheduling/scheduling_policy.py`
* `dagster/core/instance/__init__.py`

Collaborator classes that the sensor module imports but whose bodies are not
part of the sources (the daemon cursor class, the cursor serialization
helpers, the condition evaluator and the run-request builder) are modelled
from the specification; each such definition carries a doc comment saying so.
-/

namespace DagsterSpec

/-- An asset identifier: an ordered sequence of path segments
(`AssetKey` from `dagster._core.definitions.events`). -/
structure AssetKey where
  path : List String
deriving DecidableEq, Repr

/-- `AssetKeyPartitionKey`: an asset key together with an optional partition
key; equal iff both fields match. -/
structure AssetKeyPartitionKey where
  asset_key : AssetKey
  partition_key : Option String
deriving DecidableEq, Repr

/-- Alias used by the reactive-scheduling module
(`AssetPartition: TypeAlias = AssetKeyPartitionKey`). -/
abbrev AssetPartition := AssetKeyPartitionKey

/-- The asset dependency graph: node keys plus depends-on edges.  Only the
node set matters for the claims proved here (cursor keys referencing
unknown assets are dropped at deserialization time). -/
structure AssetGraph where
  asset_keys : List AssetKey
  deps : List (AssetKey × AssetKey)
deriving DecidableEq, Repr

/-- `PipelineRun`, modelled with the fields the embedded instance methods
inspect: the run id and the pipeline name. -/
structure PipelineRun where
  run_id : String
  pipeline_name : String
deriving DecidableEq, Repr

/-- The exceptions raised by the embedded code paths. -/
inductive DagsterError where
  | runAlreadyExists (run_id : String)
  | runConflict
  | checkFailed
  | notImplementedError
  | paramInvariant
deriving DecidableEq, Repr

/-- Modelled from the spec: the external run storage backing
`DagsterInstance` is a store of runs with an at-most-once-per-run-id
guarantee; embedded as the list of runs committed so far, in order. -/
abbrev RunStorage := List PipelineRun

/-- `DagsterInstance.has_run`, forwarded to the run storage. -/
def has_run (s : RunStorage) (run_id : String) : Bool :=
  s.any (fun r => r.run_id == run_id)

/-- `DagsterInstance.get_run_by_id`, forwarded to the run storage. -/
def get_run_by_id (s : RunStorage) (run_id : String) : Option PipelineRun :=
  s.find? (fun r => r.run_id == run_id)

/-- `DagsterInstance.add_run`: commits the run and returns it. -/
def add_run (s : RunStorage) (r : PipelineRun) : PipelineRun × RunStorage :=
  (r, s ++ [r])

/-- `DagsterInstance.create_run`: raises `DagsterRunAlreadyExists` when the
run id is already present (before touching storage), otherwise adds the run
and returns it.  Exceptions are embedded as an `Except` result paired with
the (possibly updated) storage state. -/
def create_run (s : RunStorage) (r : PipelineRun) :
    Except DagsterError PipelineRun × RunStorage :=
  if has_run s r.run_id then
    (Except.error (DagsterError.runAlreadyExists r.run_id), s)
  else
    let (run, s2) := add_run s r
    (Except.ok run, s2)

/-- `DagsterInstance.get_or_create_run`.  The `interleaved` argument models
runs committed by a concurrent writer between the initial `has_run` check
and the `create_run` call (the code notes it "eventually needs
transactional/locking semantics"); with `interleaved = []` this is exactly
the sequential behaviour of the source.  As in the source, the success
value is the possibly-absent result of `get_run_by_id`. -/
def get_or_create_run_with_race (s : RunStorage) (interleaved : List PipelineRun)
    (r : PipelineRun) : Except DagsterError (Option PipelineRun) × RunStorage :=
  if has_run s r.run_id then
    let candidate_run := get_run_by_id s r.run_id
    if candidate_run = some r then (Except.ok candidate_run, s)
    else (Except.error DagsterError.runConflict, s)
  else
    let s1 := s ++ interleaved
    match create_run s1 r with
    | (Except.ok run, s2) => (Except.ok (some run), s2)
    | (Except.error (DagsterError.runAlreadyExists _), s2) =>
      if has_run s2 r.run_id then (Except.ok (get_run_by_id s2 r.run_id), s2)
      else (Except.error DagsterError.checkFailed, s2)
    | (Except.error e, s2) => (Except.error e, s2)

/-- `DagsterInstance.get_or_create_run` with no concurrent interleaving:
the sequential semantics of the source. -/
def get_or_create_run (s : RunStorage) (r : PipelineRun) :
    Except DagsterError (Option PipelineRun) × RunStorage :=
  get_or_create_run_with_race s [] r

/-- Modelled from the spec: `AutomationConditionCursor`, the per-asset
serializable sub-cursor stored between ticks (the class is not under the
sources) — it records the asset key, the stable hash of the last true-set
(`result_value_hash`, compared by the audit filter in the source), and the
remaining condition state, kept opaque here. -/
structure ConditionCursor where
  asset_key : AssetKey
  result_value_hash : String
  payload : String
deriving DecidableEq, Repr

/-- Modelled from the spec: `AssetDaemonCursor` (not under the sources) —
the process-independent snapshot carried between ticks: monotonic
evaluation id, evaluation timestamp, per-asset condition sub-cursors, and
the asset keys newly requested for observation. -/
structure AssetDaemonCursor where
  evaluation_id : Nat
  evaluation_timestamp : Option Nat
  newly_observe_requested_asset_keys : List AssetKey
  condition_cursors : List ConditionCursor
deriving DecidableEq, Repr

/-- The empty initial cursor (first-ever tick, or deserialization fallback). -/
def AssetDaemonCursor.empty : AssetDaemonCursor :=
  { evaluation_id := 0
    evaluation_timestamp := none
    newly_observe_requested_asset_keys := []
    condition_cursors := [] }

/-- `cursor.get_previous_condition_cursor(asset_key)`: the sub-cursor stored
for an asset key, if any. -/
def AssetDaemonCursor.get_previous_condition_cursor (c : AssetDaemonCursor)
    (k : AssetKey) : Option ConditionCursor :=
  c.condition_cursors.find? (fun cc => cc.asset_key == k)

/-- Modelled from the spec: `AssetDaemonCursor.with_updates` (not under the
sources) produces a new Cursor from the old one and the tick's results.
Every field is set from the corresponding explicit keyword argument of the
call site; the sub-cursor of each asset evaluated this tick is replaced by
its newly computed one, while assets not touched this tick retain their
prior sub-cursor unchanged (partial update, not full replacement). -/
def AssetDaemonCursor.with_updates (c : AssetDaemonCursor) (evaluation_id : Nat)
    (evaluation_timestamp : Nat) (newly_observe_requested_asset_keys : List AssetKey)
    (condition_cursors : List ConditionCursor) : AssetDaemonCursor :=
  { evaluation_id := evaluation_id
    evaluation_timestamp := some evaluation_timestamp
    newly_observe_requested_asset_keys := newly_observe_requested_asset_keys
    condition_cursors :=
      condition_cursors ++
        c.condition_cursors.filter
          (fun pc => !(condition_cursors.any (fun nc => nc.asset_key == pc.asset_key))) }

/-- `AutomationResult`, with the members `evaluate_automation_conditions`
reads: the asset key, the stable hash of the true-set (`value_hash`), the
true-set itself (`true_slice`), the serializable evaluation record, and the
state folded into the new sub-cursor. -/
structure AutomationResult where
  asset_key : AssetKey
  value_hash : String
  true_slice : List AssetPartition
  serializable_evaluation : String
  cursor_payload : String
deriving DecidableEq, Repr

/-- `result.get_new_cursor()`: the asset's newly computed sub-cursor,
carrying the result's value hash. -/
def AutomationResult.get_new_cursor (r : AutomationResult) : ConditionCursor :=
  { asset_key := r.asset_key
    result_value_hash := r.value_hash
    payload := r.cursor_payload }

/-- The cursor update performed at the end of a tick, exactly as the call in
`evaluate_automation_conditions`:
`cursor.with_updates(evaluation_id=cursor.evaluation_id,
evaluation_timestamp=..., newly_observe_requested_asset_keys=[],
condition_cursors=[result.get_new_cursor() for result in results])`. -/
def tick_new_cursor (cursor : AssetDaemonCursor) (evaluation_timestamp : Nat)
    (results : List AutomationResult) : AssetDaemonCursor :=
  cursor.with_updates cursor.evaluation_id evaluation_timestamp []
    (results.map AutomationResult.get_new_cursor)

/-- The audit-record filter at the end of `evaluate_automation_conditions`
("only record evaluation results where something changed"): a result's
record is appended iff no previous sub-cursor exists, or the stored value
hash differs, or the true-set is non-empty. -/
def updated_evaluations (cursor : AssetDaemonCursor) :
    List AutomationResult → List String
  | [] => []
  | result :: rest =>
    match cursor.get_previous_condition_cursor result.asset_key with
    | none => result.serializable_evaluation :: updated_evaluations cursor rest
    | some previous_cursor =>
      if previous_cursor.result_value_hash != result.value_hash
          || !result.true_slice.isEmpty then
        result.serializable_evaluation :: updated_evaluations cursor rest
      else
        updated_evaluations cursor rest

/-- Splits a character list on a separator character; the result always has
one more piece than there are separators. -/
def splitOnChar (c : Char) : List Char → List (List Char)
  | [] => [[]]
  | x :: xs =>
    match splitOnChar c xs with
    | [] => if x = c then [[], []] else [[x]]
    | r :: rs => if x = c then [] :: r :: rs else (x :: r) :: rs

/-- Parses a non-empty all-digit character list as a natural number. -/
def parseNatChars (cs : List Char) : Option Nat :=
  if cs.isEmpty then none
  else if cs.all Char.isDigit then
    some (cs.foldl (fun acc c => acc * 10 + (c.toNat - 48)) 0)
  else none

/-- Parses the optional-timestamp field: a dash encodes absence. -/
def parseTimestampChars (cs : List Char) : Option (Option Nat) :=
  if cs = ['-'] then some none
  else
    match parseNatChars cs with
    | some n => some (some n)
    | none => none

/-- Reads an asset key from dot-separated path segments. -/
def parseAssetKeyChars (cs : List Char) : AssetKey :=
  { path := (splitOnChar '.' cs).map (fun s => String.mk s) }

/-- Reads a semicolon-separated list of asset keys; empty input is the
empty list. -/
def parseAssetKeysChars (cs : List Char) : List AssetKey :=
  if cs.isEmpty then []
  else (splitOnChar ';' cs).map parseAssetKeyChars

/-- Reads one condition sub-cursor from its three comma-separated fields. -/
def parseConditionCursorChars (cs : List Char) : Option ConditionCursor :=
  match splitOnChar ',' cs with
  | [k, h, p] =>
    some { asset_key := parseAssetKeyChars k
           result_value_hash := String.mk h
           payload := String.mk p }
  | _ => none

/-- Reads a semicolon-separated list of condition sub-cursors; any
malformed entry makes the whole list malformed. -/
def parseConditionCursorsChars (cs : List Char) : Option (List ConditionCursor) :=
  if cs.isEmpty then some []
  else (splitOnChar ';' cs).mapM parseConditionCursorChars

/-- Modelled from the spec: the versioned wire format of the serialized
daemon cursor (an opaque string to its callers).  A string of a foreign
version or one that does not parse is malformed and yields `none`. -/
def parse_cursor (s : String) : Option AssetDaemonCursor :=
  match splitOnChar '|' s.data with
  | [v, idcs, tscs, obscs, cccs] =>
    if v = "v1".data then
      match parseNatChars idcs, parseTimestampChars tscs,
          parseConditionCursorsChars cccs with
      | some id, some ts, some ccs =>
        some { evaluation_id := id
               evaluation_timestamp := ts
               newly_observe_requested_asset_keys := parseAssetKeysChars obscs
               condition_cursors := ccs }
      | _, _, _ => none
    else none
  | _ => none

/-- Modelled from the spec:
`asset_daemon_cursor_from_instigator_serialized_cursor` (from
`dagster._daemon.asset_daemon`, not under the sources) — a missing,
malformed or foreign-version serialized cursor falls back to the empty
initial cursor rather than failing the tick, and cursor entries whose asset
key is not a node of the current asset graph are dropped. -/
def asset_daemon_cursor_from_instigator_serialized_cursor
    (serialized : Option String) (asset_graph : AssetGraph) : AssetDaemonCursor :=
  match serialized with
  | none => AssetDaemonCursor.empty
  | some s =>
    match parse_cursor s with
    | none => AssetDaemonCursor.empty
    | some c =>
      { c with
        newly_observe_requested_asset_keys :=
          c.newly_observe_requested_asset_keys.filter
            (fun k => asset_graph.asset_keys.contains k)
        condition_cursors :=
          c.condition_cursors.filter
            (fun cc => asset_graph.asset_keys.contains cc.asset_key) }

/-- Renders an asset key as dot-joined path segments. -/
def assetKeyToString (k : AssetKey) : String :=
  String.intercalate "." k.path

/-- Renders one condition sub-cursor as its three comma-joined fields. -/
def conditionCursorToString (cc : ConditionCursor) : String :=
  String.intercalate "," [assetKeyToString cc.asset_key, cc.result_value_hash, cc.payload]

/-- Modelled from the spec:
`asset_daemon_cursor_to_instigator_serialized_cursor` (not under the
sources) — serializes the cursor to the opaque versioned string handed back
to the instigator storage. -/
def asset_daemon_cursor_to_instigator_serialized_cursor
    (c : AssetDaemonCursor) : String :=
  String.intercalate "|"
    ["v1", toString c.evaluation_id,
     (match c.evaluation_timestamp with | none => "-" | some n => toString n),
     String.intercalate ";" (c.newly_observe_requested_asset_keys.map assetKeyToString),
     String.intercalate ";" (c.condition_cursors.map conditionCursorToString)]

/-- A run request: the asset partitions to materialize plus tags. -/
structure RunRequest where
  asset_partitions : List AssetPartition
  tags : List (String × String)
deriving DecidableEq, Repr

/-- Modelled from the spec: `build_run_requests` (from
`dagster._core.definitions.asset_daemon_context`, not under the sources) —
groups the tick's requested asset partitions and emits one tagged
`RunRequest` per asset-key group. -/
def build_run_requests (asset_partitions : List AssetPartition)
    (asset_graph : AssetGraph) (run_tags : List (String × String)) : List RunRequest :=
  ((asset_partitions.map (fun ap => ap.asset_key)).dedup).map
    (fun k =>
      { asset_partitions := asset_partitions.filter (fun ap => ap.asset_key == k)
        tags := run_tags })

/-- Modelled from the spec: a point-in-time snapshot of the queryable
run/materialization history backing the caching instance queryer; its
contents are opaque to the claims proved here. -/
structure InstanceHistory where
  events : List (AssetPartition × Nat)
deriving DecidableEq, Repr

/-- The value returned by the sensor evaluation: run requests, the new
serialized cursor, and the retained evaluation records. -/
structure SensorResult where
  run_requests : List RunRequest
  cursor : String
  automation_condition_evaluations : List String
deriving DecidableEq, Repr

/-- Modelled from the spec: the `AutomationConditionEvaluator` constructed
per tick — `evaluate()` is a pure function of the asset graph, the
queryable history, the deserialized previous cursor and "now", returning
the per-asset results and the asset partitions to request; embedded as an
explicit function argument of that type. -/
def AutomationEvaluator : Type :=
  AssetGraph → InstanceHistory → AssetDaemonCursor → Nat →
    List AutomationResult × List AssetPartition

/-- `evaluate_automation_conditions`: one sensor tick.  Deserializes the
previous cursor, runs the evaluator, produces the new cursor (passing the
previous evaluation id through, an empty newly-observe-requested list, and
the results' new sub-cursors), builds run requests from the requested
partitions, and keeps only the evaluation records where something
changed. -/
def evaluate_automation_conditions (evaluator : AutomationEvaluator)
    (asset_graph : AssetGraph) (history : InstanceHistory)
    (serialized_cursor : Option String) (now : Nat)
    (auto_materialize_run_tags : List (String × String)) : SensorResult :=
  let cursor := asset_daemon_cursor_from_instigator_serialized_cursor
    serialized_cursor asset_graph
  let results_to_request := evaluator asset_graph history cursor now
  let results := results_to_request.1
  let to_request := results_to_request.2
  let new_cursor := tick_new_cursor cursor now results
  let run_requests := build_run_requests to_request asset_graph auto_materialize_run_tags
  { run_requests := run_requests
    cursor := asset_daemon_cursor_to_instigator_serialized_cursor new_cursor
    automation_condition_evaluations := updated_evaluations cursor results }

/-- `SchedulingResult` from the reactive-scheduling module:
`launch` plus optional cursor and explicit partition keys, both of which
default to absent. -/
structure SchedulingResult where
  launch : Bool
  cursor : Option String := none
  explicit_partition_keys : Option (List String) := none
deriving DecidableEq, Repr

/-- `SchedulingExecutionContext` from the reactive-scheduling module, with
the fields a policy decision can read (the queryer and repository handles
carry no data relevant to the embedded policies). -/
structure SchedulingExecutionContext where
  previous_tick_dt : Option Nat
  tick_dt : Nat
  asset_key : AssetKey
  previous_cursor : Option String
deriving DecidableEq, Repr

/-- `RequestReaction`: whether a neighbouring asset's change request should
include this asset.  The source field `include` is a Lean keyword, hence
the primed name. -/
structure RequestReaction where
  include' : Bool
deriving DecidableEq, Repr

/-- `DefaultSchedulingPolicy.schedule`: always `SchedulingResult(launch=False)`. -/
def DefaultSchedulingPolicy.schedule
    (context : SchedulingExecutionContext) : SchedulingResult :=
  { launch := false }

/-- `DefaultSchedulingPolicy.react_to_downstream_request`: always
`RequestReaction(include=False)`. -/
def DefaultSchedulingPolicy.react_to_downstream_request
    (context : SchedulingExecutionContext)
    (asset_partition : AssetPartition) : RequestReaction :=
  { include' := false }

/-- Modelled from the spec: the reactive-scheduling driver walks the
per-asset scheduling policies and emits a run request for an asset exactly
when its policy's `SchedulingResult` has `launch = true` (spec scenario 1:
default policy for every asset gives an empty run-request list). -/
def scheduling_pulse
    (policies : List (AssetKey × (SchedulingExecutionContext → SchedulingResult)))
    (make_context : AssetKey → SchedulingExecutionContext) : List RunRequest :=
  policies.foldr
    (fun p acc =>
      if (p.2 (make_context p.1)).launch then
        { asset_partitions := [{ asset_key := p.1, partition_key := none }]
          tags := [] } :: acc
      else acc)
    []

/-- `SensorType`: automation sensors are `AUTOMATION` when user-code,
`AUTO_MATERIALIZE` otherwise. -/
inductive SensorType where
  | AUTOMATION
  | AUTO_MATERIALIZE
deriving DecidableEq, Repr

/-- An automation condition declaration; its expression tree is opaque to
the claims proved here. -/
structure AutomationCondition where
  label : String
deriving DecidableEq, Repr

/-- The sensor evaluation context handed to an evaluation function: the
repository's asset graph, the queryable history, the stored serialized
cursor, the current time, and the instance's auto-materialize run tags,
plus the per-tick condition evaluator. -/
structure SensorEvaluationContext where
  asset_graph : AssetGraph
  history : InstanceHistory
  cursor : Option String
  now : Nat
  auto_materialize_run_tags : List (String × String)
  evaluator : AutomationEvaluator

/-- `not_supported`: the evaluation function installed on non-user-code
automation condition sensors; it raises `NotImplementedError` for every
context. -/
def not_supported (context : SensorEvaluationContext) :
    Except DagsterError SensorResult :=
  Except.error DagsterError.notImplementedError

/-- The constructor arguments of `AutomationConditionSensorDefinition` that
determine its evaluation behaviour; `user_code` and
`default_automation_condition` arrive through `**kwargs` and default to
false and absent. -/
structure AutomationConditionSensorDefinitionArgs where
  name : String
  user_code : Bool := false
  default_automation_condition : Option AutomationCondition := none
deriving DecidableEq, Repr

/-- The constructed sensor definition: its name, installed evaluation
function, and sensor type. -/
structure AutomationConditionSensorDefinition where
  name : String
  evaluation_fn : SensorEvaluationContext → Except DagsterError SensorResult
  sensor_type : SensorType

/-- `AutomationConditionSensorDefinition.__init__`: a default automation
condition on a non-user-code sensor violates the parameter invariant;
otherwise the evaluation function is the real evaluation when `user_code`
is set and `not_supported` when it is not, and the sensor type is
`AUTOMATION` or `AUTO_MATERIALIZE` accordingly. -/
def mkAutomationConditionSensorDefinition
    (args : AutomationConditionSensorDefinitionArgs) :
    Except DagsterError AutomationConditionSensorDefinition :=
  if args.default_automation_condition.isSome && !args.user_code then
    Except.error DagsterError.paramInvariant
  else
    Except.ok
      { name := args.name
        evaluation_fn :=
          if args.user_code then
            fun context =>
              Except.ok (evaluate_automation_conditions context.evaluator
                context.asset_graph context.history context.cursor context.now
                context.auto_materialize_run_tags)
          else not_supported
        sensor_type :=
          if args.user_code then SensorType.AUTOMATION
          else SensorType.AUTO_MATERIALIZE }

/-- The suppression condition exactly as the claim words it: a previous
sub-cursor exists for the asset, its stored value hash equals the result's
value hash, and the result's true-set is empty. -/
def suppressed_per_claim (cursor : AssetDaemonCursor)
    (result : AutomationResult) : Bool :=
  match cursor.get_previous_condition_cursor result.asset_key with
  | none => false
  | some previous_cursor =>
    previous_cursor.result_value_hash == result.value_hash
      && result.true_slice.isEmpty

/-! Helper lemmas shared by the claim proofs. -/

/-- Filtering by a predicate that holds wherever the searched-for predicate
holds does not change the result of `find?`. -/
theorem find?_filter_of_imp {α} (p q : α → Bool) (l : List α)
    (h : ∀ x, p x = true → q x = true) :
    (l.filter q).find? p = l.find? p := by
  induction l with
  | nil => rfl
  | cons x xs ih =>
    by_cases hq : q x = true
    · rw [List.filter_cons_of_pos hq, List.find?_cons, List.find?_cons]
      cases hp : p x
      · exact ih
      · rfl
    · rw [List.filter_cons_of_neg hq, List.find?_cons]
      cases hp : p x
      · exact ih
      · exact absurd (h x hp) hq

/-- A run found by id is in particular present in the storage. -/
theorem has_run_of_get_run_by_id (s : RunStorage) (run_id : String)
    (r : PipelineRun) (h : get_run_by_id s run_id = some r) :
    has_run s run_id = true := by
  have hp := List.find?_some h
  have hm := List.mem_of_find?_eq_some h
  exact List.any_eq_true.mpr ⟨r, hm, hp⟩

/-- Looking up the key of a listed result among the freshly built
sub-cursors finds that result's sub-cursor, provided the results' asset
keys are pairwise distinct. -/
theorem find?_new_condition_cursors (results : List AutomationResult)
    (r : AutomationResult) (hmem : r ∈ results)
    (hnodup : (results.map AutomationResult.asset_key).Nodup) :
    (results.map AutomationResult.get_new_cursor).find?
      (fun cc => cc.asset_key == r.asset_key) = some r.get_new_cursor := by
  induction results with
  | nil => cases hmem
  | cons x xs ih =>
    rw [List.map_cons, List.find?_cons]
    rcases List.mem_cons.mp hmem with rfl | hmem'
    · simp [AutomationResult.get_new_cursor]
    · have hne : x.asset_key ≠ r.asset_key := by
        intro he
        have hx : x.asset_key ∉ xs.map AutomationResult.asset_key :=
          (List.nodup_cons.mp hnodup).1
        exact hx (he ▸ List.mem_map_of_mem AutomationResult.asset_key hmem')
      have hb : ((AutomationResult.get_new_cursor x).asset_key == r.asset_key) = false := by
        simp [AutomationResult.get_new_cursor, hne]
      rw [hb]
      exact ih hmem' (List.nodup_cons.mp hnodup).2

/-- Looking up a key held by none of the listed results among the freshly
built sub-cursors finds nothing. -/
theorem find?_new_condition_cursors_none (results : List AutomationResult)
    (k : AssetKey) (hk : ∀ r ∈ results, r.asset_key ≠ k) :
    (results.map AutomationResult.get_new_cursor).find?
      (fun cc => cc.asset_key == k) = none := by
  rw [List.find?_eq_none]
  intro cc hcc
  rcases List.mem_map.mp hcc with ⟨r, hr, rfl⟩
  simp [AutomationResult.get_new_cursor, hk r hr]

/-! Claims. -/

/-- C1 counterexample: at the concrete previous cursor with evaluation id 5
(and an arbitrary tick), the new cursor produced by the tick's update also
has evaluation id 5, so `new_cursor.evaluation_id > old_cursor.evaluation_id`
fails. -/
theorem c1_counterexample :
    ¬ (tick_new_cursor (AssetDaemonCursor.mk 5 none [] []) 7 []).evaluation_id
        > (AssetDaemonCursor.mk 5 none [] []).evaluation_id := by
  decide

/-- C1 (amended): the tick's cursor update passes
`evaluation_id=cursor.evaluation_id` through unchanged, so the new cursor's
evaluation id always equals — and is never strictly greater than — the
previous cursor's evaluation id. -/
theorem c1_evaluation_id_preserved (cursor : AssetDaemonCursor)
    (evaluation_timestamp : Nat) (results : List AutomationResult) :
    (tick_new_cursor cursor evaluation_timestamp results).evaluation_id
      = cursor.evaluation_id := rfl

/-- C8: the cursor update at the end of every tick records an empty list of
newly-observe-requested asset keys, regardless of the previous cursor, the
timestamp, or the tick's results. -/
theorem c8_no_observe_requests (cursor : AssetDaemonCursor)
    (evaluation_timestamp : Nat) (results : List AutomationResult) :
    (tick_new_cursor cursor evaluation_timestamp
        results).newly_observe_requested_asset_keys = [] := rfl

/-- C4: `DefaultSchedulingPolicy.schedule` always returns
`launch = false` with no cursor and no explicit partition keys,
`DefaultSchedulingPolicy.react_to_downstream_request` always returns
`include = false`, and the scheduling pulse over two assets A and B under
the default policy emits no run requests. -/
theorem c4_default_policy_never_launches :
    (∀ context : SchedulingExecutionContext,
      DefaultSchedulingPolicy.schedule context
        = { launch := false, cursor := none, explicit_partition_keys := none })
    ∧ (∀ (context : SchedulingExecutionContext) (asset_partition : AssetPartition),
      DefaultSchedulingPolicy.react_to_downstream_request context asset_partition
        = { include' := false })
    ∧ (∀ make_context : AssetKey → SchedulingExecutionContext,
      scheduling_pulse
        [({ path := ["A"] }, DefaultSchedulingPolicy.schedule),
         ({ path := ["B"] }, DefaultSchedulingPolicy.schedule)]
        make_context = []) :=
  ⟨fun _ => rfl, fun _ _ => rfl, fun _ => rfl⟩

/-- C10: `create_run` on a run id already present raises
`DagsterRunAlreadyExists` and leaves the storage unchanged; on a fresh run
id it appends the run to the storage and returns it. -/
theorem c10_create_run_semantics (s : RunStorage) (r : PipelineRun) :
    (has_run s r.run_id = true →
      create_run s r = (Except.error (DagsterError.runAlreadyExists r.run_id), s))
    ∧ (has_run s r.run_id = false →
      create_run s r = (Except.ok r, s ++ [r])) := by
  constructor
  · intro h
    simp [create_run, h]
  · intro h
    simp [create_run, add_run, h]

/-- C10 witness: both branches of `c10_create_run_semantics` at concrete
storages and runs. -/
theorem c10_witness :
    create_run [{ run_id := "run_1", pipeline_name := "pipeline_a" }]
        { run_id := "run_1", pipeline_name := "pipeline_b" }
      = (Except.error (DagsterError.runAlreadyExists "run_1"),
         [{ run_id := "run_1", pipeline_name := "pipeline_a" }])
    ∧ create_run [] { run_id := "run_2", pipeline_name := "pipeline_a" }
      = (Except.ok { run_id := "run_2", pipeline_name := "pipeline_a" },
         [{ run_id := "run_2", pipeline_name := "pipeline_a" }]) :=
  ⟨(c10_create_run_semantics
      [{ run_id := "run_1", pipeline_name := "pipeline_a" }]
      { run_id := "run_1", pipeline_name := "pipeline_b" }).1 (by decide),
   by
    have h := (c10_create_run_semantics []
      { run_id := "run_2", pipeline_name := "pipeline_a" }).2 (by decide)
    simpa using h⟩

/-- C2: the audit-record filter of a tick keeps exactly the records whose
suppression condition fails, and a result is suppressed iff a previous
sub-cursor exists for its asset, the stored value hash equals the result's
value hash, and the result's true-set is empty — in particular a non-empty
unchanged true-set is still recorded. -/
theorem c2_record_suppression (cursor : AssetDaemonCursor)
    (results : List AutomationResult) :
    updated_evaluations cursor results
      = (results.filter (fun r => !suppressed_per_claim cursor r)).map
          AutomationResult.serializable_evaluation
    ∧ ∀ r : AutomationResult, suppressed_per_claim cursor r = true ↔
        ∃ pc : ConditionCursor,
          cursor.get_previous_condition_cursor r.asset_key = some pc
            ∧ pc.result_value_hash = r.value_hash
            ∧ r.true_slice.isEmpty = true := by
  constructor
  · induction results with
    | nil => rfl
    | cons result rest ih =>
      rw [updated_evaluations, List.filter_cons]
      cases h : cursor.get_previous_condition_cursor result.asset_key with
      | none =>
        have hs : suppressed_per_claim cursor result = false := by
          unfold suppressed_per_claim
          rw [h]
        simp [hs, ih]
      | some pc =>
        have hs : suppressed_per_claim cursor result
            = (pc.result_value_hash == result.value_hash
                && result.true_slice.isEmpty) := by
          unfold suppressed_per_claim
          rw [h]
        rw [hs]
        have hcond : (pc.result_value_hash != result.value_hash
              || !result.true_slice.isEmpty)
            = !(pc.result_value_hash == result.value_hash
              && result.true_slice.isEmpty) :=
          (Bool.not_and _ _).symm
        cases hb : (pc.result_value_hash == result.value_hash
            && result.true_slice.isEmpty) with
        | true =>
          have h1 : (pc.result_value_hash != result.value_hash
              || !result.true_slice.isEmpty) = false := by
            rw [hcond, hb]
            rfl
          simp [h1, ih]
        | false =>
          have h1 : (pc.result_value_hash != result.value_hash
              || !result.true_slice.isEmpty) = true := by
            rw [hcond, hb]
            rfl
          simp [h1, ih]
  · intro r
    unfold suppressed_per_claim
    cases h : cursor.get_previous_condition_cursor r.asset_key with
    | none => simp
    | some pc => simp [Bool.and_eq_true, beq_iff_eq]

/-- C3: one tick is a deterministic function of the asset graph, the
queryable history, the previous serialized cursor and "now" (plus the
instance run tags): equal inputs give identical run requests, an identical
new serialized cursor, and identical evaluation records. -/
theorem c3_tick_deterministic (e1 e2 : AutomationEvaluator) (g1 g2 : AssetGraph)
    (q1 q2 : InstanceHistory) (sc1 sc2 : Option String) (n1 n2 : Nat)
    (t1 t2 : List (String × String))
    (he : e1 = e2) (hg : g1 = g2) (hq : q1 = q2) (hc : sc1 = sc2)
    (hn : n1 = n2) (ht : t1 = t2) :
    (evaluate_automation_conditions e1 g1 q1 sc1 n1 t1).run_requests
      = (evaluate_automation_conditions e2 g2 q2 sc2 n2 t2).run_requests
    ∧ (evaluate_automation_conditions e1 g1 q1 sc1 n1 t1).cursor
      = (evaluate_automation_conditions e2 g2 q2 sc2 n2 t2).cursor
    ∧ (evaluate_automation_conditions e1 g1 q1 sc1 n1 t1).automation_condition_evaluations
      = (evaluate_automation_conditions e2 g2 q2 sc2 n2 t2).automation_condition_evaluations := by
  subst he hg hq hc hn ht
  exact ⟨rfl, rfl, rfl⟩

/-- C3 witness: the determinism theorem applied at a concrete evaluator,
graph, history, cursor and time. -/
theorem c3_witness :
    (evaluate_automation_conditions (fun _ _ _ _ => ([], []))
        (AssetGraph.mk [] []) (InstanceHistory.mk []) none 0 []).run_requests
      = (evaluate_automation_conditions (fun _ _ _ _ => ([], []))
        (AssetGraph.mk [] []) (InstanceHistory.mk []) none 0 []).run_requests
    ∧ (evaluate_automation_conditions (fun _ _ _ _ => ([], []))
        (AssetGraph.mk [] []) (InstanceHistory.mk []) none 0 []).cursor
      = (evaluate_automation_conditions (fun _ _ _ _ => ([], []))
        (AssetGraph.mk [] []) (InstanceHistory.mk []) none 0 []).cursor
    ∧ (evaluate_automation_conditions (fun _ _ _ _ => ([], []))
        (AssetGraph.mk [] []) (InstanceHistory.mk [])
        none 0 []).automation_condition_evaluations
      = (evaluate_automation_conditions (fun _ _ _ _ => ([], []))
        (AssetGraph.mk [] []) (InstanceHistory.mk [])
        none 0 []).automation_condition_evaluations :=
  c3_tick_deterministic _ _ _ _ _ _ _ _ _ _ _ _ rfl rfl rfl rfl rfl rfl

/-- C5 counterexample: with a different run already stored under the same
run id, `get_or_create_run` raises `DagsterRunConflict` instead of
returning the already-stored run. -/
theorem c5_counterexample :
    get_or_create_run [PipelineRun.mk "run_1" "pipeline_a"]
        (PipelineRun.mk "run_1" "pipeline_b")
      = (Except.error DagsterError.runConflict,
         [PipelineRun.mk "run_1" "pipeline_a"]) := rfl

/-- C5 (amended): `get_or_create_run` treats an already-existing run id as
idempotent success when the stored run equals the run being created,
returning the stored run with storage unchanged; when a different run is
stored under the id it raises `DagsterRunConflict` instead.  When a
concurrent writer commits the run id between the existence check and the
create (so `create_run` raises the storage's run-already-exists error), the
handler returns whatever run is then stored, as a non-fatal success. -/
theorem c5_idempotent_success (s : RunStorage) (interleaved : List PipelineRun)
    (r : PipelineRun) :
    (get_run_by_id s r.run_id = some r →
      get_or_create_run s r = (Except.ok (some r), s))
    ∧ (has_run s r.run_id = false → has_run (s ++ interleaved) r.run_id = true →
      get_or_create_run_with_race s interleaved r
        = (Except.ok (get_run_by_id (s ++ interleaved) r.run_id),
           s ++ interleaved)) := by
  constructor
  · intro h
    have hh := has_run_of_get_run_by_id s r.run_id r h
    unfold get_or_create_run get_or_create_run_with_race
    simp [hh, h]
  · intro h0 h1
    unfold get_or_create_run_with_race create_run add_run
    simp [h0, h1]

/-- C5 witness: both amended branches at concrete storages — a re-created
identical run, and a run id committed by a concurrent writer between the
check and the create. -/
theorem c5_witness :
    (get_run_by_id [PipelineRun.mk "run_1" "pipeline_a"] "run_1"
        = some (PipelineRun.mk "run_1" "pipeline_a")
      ∧ get_or_create_run [PipelineRun.mk "run_1" "pipeline_a"]
          (PipelineRun.mk "run_1" "pipeline_a")
        = (Except.ok (some (PipelineRun.mk "run_1" "pipeline_a")),
           [PipelineRun.mk "run_1" "pipeline_a"]))
    ∧ (has_run [] "run_2" = false
      ∧ has_run ([] ++ [PipelineRun.mk "run_2" "pipeline_x"]) "run_2" = true
      ∧ get_or_create_run_with_race [] [PipelineRun.mk "run_2" "pipeline_x"]
          (PipelineRun.mk "run_2" "pipeline_x")
        = (Except.ok (get_run_by_id ([] ++ [PipelineRun.mk "run_2" "pipeline_x"])
            "run_2"),
           [] ++ [PipelineRun.mk "run_2" "pipeline_x"])) :=
  ⟨⟨by decide,
    (c5_idempotent_success [PipelineRun.mk "run_1" "pipeline_a"] []
      (PipelineRun.mk "run_1" "pipeline_a")).1 (by decide)⟩,
   ⟨by decide, by decide,
    (c5_idempotent_success [] [PipelineRun.mk "run_2" "pipeline_x"]
      (PipelineRun.mk "run_2" "pipeline_x")).2 (by decide) (by decide)⟩⟩

/-- C6: the tick's cursor update is a partial update — it stamps the tick's
evaluation timestamp, replaces the sub-cursor of every asset evaluated this
tick with that asset's newly computed sub-cursor, and leaves the sub-cursor
of every asset not touched this tick unchanged. -/
theorem c6_cursor_partial_update (cursor : AssetDaemonCursor)
    (evaluation_timestamp : Nat) (results : List AutomationResult)
    (hnodup : (results.map AutomationResult.asset_key).Nodup) :
    (tick_new_cursor cursor evaluation_timestamp results).evaluation_timestamp
      = some evaluation_timestamp
    ∧ (∀ r ∈ results,
      (tick_new_cursor cursor evaluation_timestamp
          results).get_previous_condition_cursor r.asset_key
        = some r.get_new_cursor)
    ∧ (∀ k : AssetKey, (∀ r ∈ results, r.asset_key ≠ k) →
      (tick_new_cursor cursor evaluation_timestamp
          results).get_previous_condition_cursor k
        = cursor.get_previous_condition_cursor k) := by
  refine ⟨rfl, ?_, ?_⟩
  · intro r hr
    simp only [tick_new_cursor, AssetDaemonCursor.with_updates,
      AssetDaemonCursor.get_previous_condition_cursor]
    rw [List.find?_append, find?_new_condition_cursors results r hr hnodup]
    rfl
  · intro k hk
    simp only [tick_new_cursor, AssetDaemonCursor.with_updates,
      AssetDaemonCursor.get_previous_condition_cursor]
    rw [List.find?_append, find?_new_condition_cursors_none results k hk]
    rw [Option.none_or]
    refine find?_filter_of_imp _ _ _ ?_
    intro cc hcc
    have hck : cc.asset_key = k := by simpa using hcc
    have hany : (results.map AutomationResult.get_new_cursor).any
        (fun nc => nc.asset_key == cc.asset_key) = false := by
      rw [List.any_eq_false]
      intro x hx
      rcases List.mem_map.mp hx with ⟨r, hr, rfl⟩
      simp [AutomationResult.get_new_cursor, hck, hk r hr]
    simp [hany]

/-- C6 witness: a concrete tick over one evaluated asset, with a previous
cursor holding sub-cursors for it and for an untouched asset. -/
theorem c6_witness :
    ((([AutomationResult.mk (AssetKey.mk ["A"]) "h2" [] "ev" "st"]).map
        AutomationResult.asset_key).Nodup)
    ∧ (tick_new_cursor
        (AssetDaemonCursor.mk 3 (some 1)
          [] [ConditionCursor.mk (AssetKey.mk ["A"]) "h1" "s0",
              ConditionCursor.mk (AssetKey.mk ["B"]) "hb" "sb"])
        9 [AutomationResult.mk (AssetKey.mk ["A"]) "h2" [] "ev" "st"]).evaluation_timestamp
      = some 9
    ∧ (tick_new_cursor
        (AssetDaemonCursor.mk 3 (some 1)
          [] [ConditionCursor.mk (AssetKey.mk ["A"]) "h1" "s0",
              ConditionCursor.mk (AssetKey.mk ["B"]) "hb" "sb"])
        9 [AutomationResult.mk (AssetKey.mk ["A"]) "h2" [] "ev" "st"]).get_previous_condition_cursor
        (AssetKey.mk ["A"])
      = some (ConditionCursor.mk (AssetKey.mk ["A"]) "h2" "st")
    ∧ (tick_new_cursor
        (AssetDaemonCursor.mk 3 (some 1)
          [] [ConditionCursor.mk (AssetKey.mk ["A"]) "h1" "s0",
              ConditionCursor.mk (AssetKey.mk ["B"]) "hb" "sb"])
        9 [AutomationResult.mk (AssetKey.mk ["A"]) "h2" [] "ev" "st"]).get_previous_condition_cursor
        (AssetKey.mk ["B"])
      = (AssetDaemonCursor.mk 3 (some 1)
          [] [ConditionCursor.mk (AssetKey.mk ["A"]) "h1" "s0",
              ConditionCursor.mk (AssetKey.mk ["B"]) "hb" "sb"]).get_previous_condition_cursor
        (AssetKey.mk ["B"]) := by
  have h := c6_cursor_partial_update
    (AssetDaemonCursor.mk 3 (some 1)
      [] [ConditionCursor.mk (AssetKey.mk ["A"]) "h1" "s0",
          ConditionCursor.mk (AssetKey.mk ["B"]) "hb" "sb"])
    9 [AutomationResult.mk (AssetKey.mk ["A"]) "h2" [] "ev" "st"] (by decide)
  refine ⟨by decide, h.1, ?_, ?_⟩
  · exact h.2.1 (AutomationResult.mk (AssetKey.mk ["A"]) "h2" [] "ev" "st")
      (by simp)
  · exact h.2.2 (AssetKey.mk ["B"]) (by decide)

/-- C7: a malformed (or foreign-version) serialized previous cursor
deserializes to the empty initial cursor rather than failing, and the tick
completes exactly as a first tick with no stored cursor would. -/
theorem c7_malformed_cursor_falls_back (evaluator : AutomationEvaluator)
    (asset_graph : AssetGraph) (history : InstanceHistory) (s : String)
    (now : Nat) (run_tags : List (String × String))
    (hmal : parse_cursor s = none) :
    asset_daemon_cursor_from_instigator_serialized_cursor (some s) asset_graph
      = AssetDaemonCursor.empty
    ∧ evaluate_automation_conditions evaluator asset_graph history (some s)
        now run_tags
      = evaluate_automation_conditions evaluator asset_graph history none
        now run_tags := by
  have h1 : asset_daemon_cursor_from_instigator_serialized_cursor (some s) asset_graph
      = AssetDaemonCursor.empty := by
    simp only [asset_daemon_cursor_from_instigator_serialized_cursor, hmal]
  refine ⟨h1, ?_⟩
  simp only [evaluate_automation_conditions, h1]
  rfl

/-- C7 witness: the concrete foreign-version string `"v0|3|-||"` does not
parse and so falls back to the empty initial cursor. -/
theorem c7_witness :
    parse_cursor "v0|3|-||" = none
    ∧ asset_daemon_cursor_from_instigator_serialized_cursor (some "v0|3|-||")
        (AssetGraph.mk [] []) = AssetDaemonCursor.empty :=
  ⟨by decide,
   (c7_malformed_cursor_falls_back (fun _ _ _ _ => ([], []))
     (AssetGraph.mk [] []) (InstanceHistory.mk []) "v0|3|-||" 0 []
     (by decide)).1⟩

/-- C9: an `AutomationConditionSensorDefinition` constructed without
`user_code = true` has `not_supported` installed: for every evaluation
context its evaluation function raises `NotImplementedError` and never
returns a `SensorResult`. -/
theorem c9_non_user_code_not_evaluable
    (args : AutomationConditionSensorDefinitionArgs)
    (d : AutomationConditionSensorDefinition)
    (huser : args.user_code = false)
    (hmk : mkAutomationConditionSensorDefinition args = Except.ok d) :
    ∀ context : SensorEvaluationContext,
      d.evaluation_fn context = Except.error DagsterError.notImplementedError
      ∧ ∀ result : SensorResult, d.evaluation_fn context ≠ Except.ok result := by
  intro context
  unfold mkAutomationConditionSensorDefinition at hmk
  rw [huser] at hmk
  cases hd : args.default_automation_condition.isSome with
  | true =>
    rw [hd] at hmk
    simp at hmk
  | false =>
    rw [hd] at hmk
    simp at hmk
    rw [← hmk]
    exact ⟨rfl, fun result h => Except.noConfusion h⟩

/-- C9 witness: the constructor applied with `user_code` unset installs
`not_supported`, which errors on a concrete context. -/
theorem c9_witness :
    (AutomationConditionSensorDefinitionArgs.mk "my_sensor" false none).user_code
      = false
    ∧ mkAutomationConditionSensorDefinition
        (AutomationConditionSensorDefinitionArgs.mk "my_sensor" false none)
      = Except.ok (AutomationConditionSensorDefinition.mk "my_sensor"
          not_supported SensorType.AUTO_MATERIALIZE)
    ∧ (AutomationConditionSensorDefinition.mk "my_sensor" not_supported
        SensorType.AUTO_MATERIALIZE).evaluation_fn
        (SensorEvaluationContext.mk (AssetGraph.mk [] []) (InstanceHistory.mk [])
          none 0 [] (fun _ _ _ _ => ([], [])))
      = Except.error DagsterError.notImplementedError := by
  refine ⟨rfl, rfl, ?_⟩
  exact (c9_non_user_code_not_evaluable
    (AutomationConditionSensorDefinitionArgs.mk "my_sensor" false none)
    (AutomationConditionSensorDefinition.mk "my_sensor" not_supported
      SensorType.AUTO_MATERIALIZE)
    rfl rfl
    (SensorEvaluationContext.mk (AssetGraph.mk [] []) (InstanceHistory.mk [])
      none 0 [] (fun _ _ _ _ => ([], [])))).1

end DagsterSpec
